import Mathlib

/-!
Shallow embedding of the dcap-rs quote-verification core.

Byte strings are `List Nat` (each entry one byte); Rust panics are modelled
as `Except.error (Err.panicked msg)` values, so a function that can panic
returns `Except Err _`.  Fixed-size Rust arrays (`[u8; 32]`, ...) become
lists together with a well-formedness predicate fixing their lengths.
-/

/-- TCB status enumeration from `src/types/mod.rs` (`enum TcbStatus`). -/
inductive TcbStatus where
  | OK
  | TcbSwHardeningNeeded
  | TcbConfigurationAndSwHardeningNeeded
  | TcbConfigurationNeeded
  | TcbOutOfDate
  | TcbOutOfDateConfigurationNeeded
  | TcbRevoked
  | TcbUnrecognized
  deriving DecidableEq, Repr, Fintype

/-- Failure outcomes.  The named constructors follow the spec's error
taxonomy; `panicked` models a Rust `panic!` / failed `assert!` / out-of-bounds
slice access (a process abort, not a typed error return). -/
inductive Err where
  | unsupportedVersion
  | truncatedInput
  | tcbEvaluationFailed
  | qeIdentityMismatch
  | invalidEncoding
  | missingCollateral (slot : String)
  | panicked (msg : String)
  deriving DecidableEq, Repr

/-- Output record of `src/types/mod.rs` (`struct VerifiedOutput`). -/
structure VerifiedOutput where
  tcb_status : TcbStatus
  mr_enclave : List Nat
  mr_signer : List Nat
  report_data : List Nat
  fmspc : List Nat
  deriving DecidableEq, Repr

/-- Length side conditions carried by the Rust field types
`[u8; 32]`, `[u8; 32]`, `[u8; 64]`, `[u8; 6]`. -/
def VerifiedOutput.wf (v : VerifiedOutput) : Prop :=
  v.mr_enclave.length = 32 ∧ v.mr_signer.length = 32 ∧
    v.report_data.length = 64 ∧ v.fmspc.length = 6

instance (v : VerifiedOutput) : Decidable v.wf := by
  unfold VerifiedOutput.wf; infer_instance

/-- The discriminant written by `to_bytes` (the `match self.tcb_status`
at `src/types/mod.rs:149`). -/
def tcb_status_to_byte : TcbStatus → Nat
  | .OK => 0
  | .TcbSwHardeningNeeded => 1
  | .TcbConfigurationAndSwHardeningNeeded => 2
  | .TcbConfigurationNeeded => 3
  | .TcbOutOfDate => 4
  | .TcbOutOfDateConfigurationNeeded => 5
  | .TcbRevoked => 6
  | .TcbUnrecognized => 7

/-- The discriminant read by `from_bytes` (the `match slice[0]` at
`src/types/mod.rs:168`); `none` is the `panic!("Invalid TCB Status")` arm. -/
def byte_to_tcb_status : Nat → Option TcbStatus
  | 0 => some .OK
  | 1 => some .TcbSwHardeningNeeded
  | 2 => some .TcbConfigurationAndSwHardeningNeeded
  | 3 => some .TcbConfigurationNeeded
  | 4 => some .TcbOutOfDate
  | 5 => some .TcbOutOfDateConfigurationNeeded
  | 6 => some .TcbRevoked
  | 7 => some .TcbUnrecognized
  | _ => none

/-- `dst[start..stop].copy_from_slice(src)` on a list: splice `src` over the
positions `start..stop` of `dst`.  The source only calls this with
fixed-size arrays whose length equals `stop - start`, which is the case the
`src.take (stop - start)` truncation is faithful to. -/
def copy_from_slice (dst : List Nat) (start stop : Nat) (src : List Nat) : List Nat :=
  dst.take start ++ src.take (stop - start) ++ dst.drop stop

/-- `VerifiedOutput::to_bytes` (`src/types/mod.rs:147-165`): a zeroed
135-byte buffer, discriminant at 0, then the four fields spliced in. -/
def VerifiedOutput.to_bytes (self : VerifiedOutput) : List Nat :=
  let raw0 := List.replicate 135 0
  let raw1 := raw0.set 0 (tcb_status_to_byte self.tcb_status)
  let raw2 := copy_from_slice raw1 1 33 self.mr_enclave
  let raw3 := copy_from_slice raw2 33 65 self.mr_signer
  let raw4 := copy_from_slice raw3 65 129 self.report_data
  copy_from_slice raw4 129 135 self.fmspc

/-- `VerifiedOutput::from_bytes` (`src/types/mod.rs:167-196`).  The source
indexes `slice[0]`, matches the discriminant, then copies four sub-slices
ending at index 135; each out-of-range access is a Rust panic, modelled as
`Err.panicked`.  Inputs longer than 135 bytes are accepted and the tail
ignored, exactly as Rust slicing does. -/
def VerifiedOutput.from_bytes (slice : List Nat) : Except Err VerifiedOutput :=
  if slice.length < 1 then
    .error (.panicked "index out of bounds")
  else
    match byte_to_tcb_status (slice.getD 0 0) with
    | none => .error (.panicked "Invalid TCB Status")
    | some tcb_status =>
      if slice.length < 135 then
        .error (.panicked "index out of bounds")
      else
        .ok { tcb_status := tcb_status
              mr_enclave := (slice.drop 1).take 32
              mr_signer := (slice.drop 33).take 32
              report_data := (slice.drop 65).take 64
              fmspc := (slice.drop 129).take 6 }

instance {ε α : Type} [DecidableEq ε] [DecidableEq α] : DecidableEq (Except ε α) := fun x y =>
  match x, y with
  | .ok a, .ok b =>
      if h : a = b then .isTrue (congrArg Except.ok h)
      else .isFalse (fun hh => h (Except.ok.inj hh))
  | .error a, .error b =>
      if h : a = b then .isTrue (congrArg Except.error h)
      else .isFalse (fun hh => h (Except.error.inj hh))
  | .ok _, .error _ => .isFalse (fun hh => Except.noConfusion hh)
  | .error _, .ok _ => .isFalse (fun hh => Except.noConfusion hh)

set_option maxRecDepth 4000 in
example :
    VerifiedOutput.from_bytes (List.replicate 135 0) =
      .ok { tcb_status := .OK, mr_enclave := List.replicate 32 0,
            mr_signer := List.replicate 32 0, report_data := List.replicate 64 0,
            fmspc := List.replicate 6 0 } := by decide

/-- The two discriminant tables invert each other (encode then decode). -/
theorem byte_to_tcb_status_to_byte (s : TcbStatus) :
    byte_to_tcb_status (tcb_status_to_byte s) = some s := by
  cases s <;> rfl

/-- The two discriminant tables invert each other (decode then encode). -/
theorem tcb_status_to_byte_of_byte {b : Nat} {s : TcbStatus}
    (h : byte_to_tcb_status b = some s) : tcb_status_to_byte s = b := by
  rcases b with _|_|_|_|_|_|_|_|n <;>
    simp only [byte_to_tcb_status] at h <;>
    first
      | (cases h; rfl)
      | exact absurd h (by simp)

/-- The decode table rejects exactly the bytes above 7. -/
theorem byte_to_tcb_status_eq_none {b : Nat} :
    byte_to_tcb_status b = none ↔ 7 < b := by
  rcases b with _|_|_|_|_|_|_|_|n <;> simp [byte_to_tcb_status]

/-- `to_bytes` written as one cons/append chain: discriminant byte first,
then the four fields in order, under the source's fixed array lengths. -/
theorem to_bytes_eq_segments (v : VerifiedOutput) (h : v.wf) :
    v.to_bytes = tcb_status_to_byte v.tcb_status ::
      (v.mr_enclave ++ v.mr_signer ++ v.report_data ++ v.fmspc) := by
  obtain ⟨h1, h2, h3, h4⟩ := h
  have r1 : (List.replicate 135 (0:Nat)).set 0 (tcb_status_to_byte v.tcb_status) =
      [tcb_status_to_byte v.tcb_status] ++ List.replicate 134 0 := rfl
  simp only [VerifiedOutput.to_bytes, copy_from_slice, r1]
  norm_num
  simp [List.take_append_eq_append_take, List.drop_append_eq_append_drop,
    List.take_of_length_le, List.drop_of_length_le, h1, h2, h3, h4]

/-- Claim C4: `to_bytes` produces exactly 135 bytes: byte 0 is the TcbStatus
discriminant under the fixed mapping OK→0 … TcbUnrecognized→7, bytes 1-32 the
mr_enclave, bytes 33-64 the mr_signer, bytes 65-128 the report_data and bytes
129-134 the fmspc. -/
theorem to_bytes_layout (v : VerifiedOutput) (h : v.wf) :
    v.to_bytes.length = 135 ∧
    v.to_bytes = tcb_status_to_byte v.tcb_status ::
      (v.mr_enclave ++ v.mr_signer ++ v.report_data ++ v.fmspc) ∧
    (v.to_bytes.drop 1).take 32 = v.mr_enclave ∧
    (v.to_bytes.drop 33).take 32 = v.mr_signer ∧
    (v.to_bytes.drop 65).take 64 = v.report_data ∧
    (v.to_bytes.drop 129).take 6 = v.fmspc ∧
    tcb_status_to_byte .OK = 0 ∧
    tcb_status_to_byte .TcbSwHardeningNeeded = 1 ∧
    tcb_status_to_byte .TcbConfigurationAndSwHardeningNeeded = 2 ∧
    tcb_status_to_byte .TcbConfigurationNeeded = 3 ∧
    tcb_status_to_byte .TcbOutOfDate = 4 ∧
    tcb_status_to_byte .TcbOutOfDateConfigurationNeeded = 5 ∧
    tcb_status_to_byte .TcbRevoked = 6 ∧
    tcb_status_to_byte .TcbUnrecognized = 7 := by
  obtain ⟨h1, h2, h3, h4⟩ := h
  have hs := to_bytes_eq_segments v ⟨h1, h2, h3, h4⟩
  rw [hs]
  refine ⟨by simp [h1, h2, h3, h4], rfl, ?_, ?_, ?_, ?_, rfl, rfl, rfl, rfl, rfl, rfl, rfl, rfl⟩ <;>
    simp [List.take_append_eq_append_take, List.drop_append_eq_append_drop,
      List.take_of_length_le, List.drop_of_length_le, h1, h2, h3, h4]

/-- A fixed sample output used by the closed witness theorems. -/
def sample_output : VerifiedOutput :=
  { tcb_status := .TcbConfigurationNeeded
    mr_enclave := List.replicate 32 17
    mr_signer := List.replicate 32 34
    report_data := List.replicate 64 51
    fmspc := [10, 11, 12, 13, 14, 15] }

set_option maxRecDepth 4000 in
/-- Closed instance of `to_bytes_layout` at `sample_output`. -/
theorem to_bytes_layout_witness :
    sample_output.to_bytes.length = 135 ∧
    sample_output.to_bytes = 3 ::
      (sample_output.mr_enclave ++ sample_output.mr_signer ++
        sample_output.report_data ++ sample_output.fmspc) :=
  ⟨(to_bytes_layout sample_output (by decide)).1,
    (to_bytes_layout sample_output (by decide)).2.1⟩

/-- Claim C2: decoding the encoding of any well-formed `VerifiedOutput`
gives back the original value: `from_bytes (to_bytes v) = v`. -/
theorem from_bytes_to_bytes (v : VerifiedOutput) (h : v.wf) :
    VerifiedOutput.from_bytes v.to_bytes = .ok v := by
  obtain ⟨h1, h2, h3, h4⟩ := h
  rw [to_bytes_eq_segments v ⟨h1, h2, h3, h4⟩]
  obtain ⟨st, ea, sa, ra, fa⟩ := v
  simp only at h1 h2 h3 h4 ⊢
  unfold VerifiedOutput.from_bytes
  rw [if_neg (by simp [h1, h2, h3, h4])]
  have hd : (tcb_status_to_byte st ::
      (ea ++ sa ++ ra ++ fa)).getD 0 0 = tcb_status_to_byte st := rfl
  rw [hd, byte_to_tcb_status_to_byte]
  dsimp only
  rw [if_neg (by simp [h1, h2, h3, h4])]
  congr 1
  simp [List.take_append_eq_append_take, List.drop_append_eq_append_drop,
    List.take_of_length_le, List.drop_of_length_le, h1, h2, h3, h4]

set_option maxRecDepth 4000 in
/-- Closed instance of `from_bytes_to_bytes` at `sample_output`. -/
theorem from_bytes_to_bytes_witness :
    VerifiedOutput.from_bytes sample_output.to_bytes = .ok sample_output :=
  from_bytes_to_bytes sample_output (by decide)

/-- Claim C3 as amended: `from_bytes` fails — by a Rust panic, modelled as a
`panicked` error value, not by returning the spec's `InvalidEncoding` —
exactly when the discriminant byte is above 7 or the input is SHORTER than
135 bytes; every input of length at least 135 whose byte 0 is in 0-7
decodes successfully. -/
theorem from_bytes_panics_iff (slice : List Nat) :
    (∃ m, VerifiedOutput.from_bytes slice = .error (.panicked m)) ↔
      slice.length < 135 ∨ 7 < slice.getD 0 0 := by
  unfold VerifiedOutput.from_bytes
  by_cases hl1 : slice.length < 1
  · rw [if_pos hl1]
    constructor
    · intro _; left; omega
    · intro _; exact ⟨_, rfl⟩
  · rw [if_neg hl1]
    rcases hb : byte_to_tcb_status (slice.getD 0 0) with _ | st
    · have h7 : 7 < slice.getD 0 0 := byte_to_tcb_status_eq_none.mp hb
      dsimp only
      constructor
      · intro _; right; exact h7
      · intro _; exact ⟨_, rfl⟩
    · have hle : ¬ 7 < slice.getD 0 0 := fun hgt => by
        rw [byte_to_tcb_status_eq_none.mpr hgt] at hb; cases hb
      dsimp only
      by_cases hl135 : slice.length < 135
      · rw [if_pos hl135]
        exact ⟨fun _ => Or.inl hl135, fun _ => ⟨_, rfl⟩⟩
      · rw [if_neg hl135]
        constructor
        · rintro ⟨m, hm⟩; cases hm
        · rintro (h | h)
          · exact absurd h hl135
          · exact absurd h hle

set_option maxRecDepth 4000 in
/-- Counterexample to claim C3 as stated: a 136-byte input (length not
exactly 135, which the claim says must be rejected) decodes successfully,
the trailing byte ignored. -/
theorem from_bytes_accepts_136_bytes :
    VerifiedOutput.from_bytes (List.replicate 136 0) =
      .ok { tcb_status := .OK, mr_enclave := List.replicate 32 0,
            mr_signer := List.replicate 32 0, report_data := List.replicate 64 0,
            fmspc := List.replicate 6 0 } ∧
    (List.replicate 136 (0 : Nat)).length = 136 := by
  exact ⟨by decide, by decide⟩

/-- `slice.take 135` split at the codec's four field boundaries. -/
theorem take_135_split (slice : List Nat) (hlen : 135 ≤ slice.length) :
    slice.take 135 = slice.getD 0 0 ::
      ((slice.drop 1).take 32 ++ ((slice.drop 33).take 32 ++
        ((slice.drop 65).take 64 ++ (slice.drop 129).take 6))) := by
  have h1 : slice.take 135 = slice.take 1 ++ (slice.drop 1).take 134 := by
    rw [show (135:Nat) = 1 + 134 by norm_num, List.take_add]
  have h2 : (slice.drop 1).take 134 =
      (slice.drop 1).take 32 ++ ((slice.drop 33).take 102) := by
    rw [show (134:Nat) = 32 + 102 by norm_num, List.take_add, List.drop_drop]
  have h3 : (slice.drop 33).take 102 =
      (slice.drop 33).take 32 ++ ((slice.drop 65).take 70) := by
    rw [show (102:Nat) = 32 + 70 by norm_num, List.take_add, List.drop_drop]
  have h4 : (slice.drop 65).take 70 =
      (slice.drop 65).take 64 ++ ((slice.drop 129).take 6) := by
    rw [show (70:Nat) = 64 + 6 by norm_num, List.take_add, List.drop_drop]
  have h0 : slice.take 1 = [slice.getD 0 0] := by
    rcases slice with _ | ⟨x, t⟩
    · simp at hlen
    · rfl
  rw [h1, h2, h3, h4, h0]
  rfl

/-- Claim C9: `from_bytes` accepts any input of length 135 or more whose
byte 0 is in 0-7, reads only the first 135 bytes, and re-encoding the
decoded value reproduces those first 135 bytes exactly. -/
theorem from_bytes_long_input (slice : List Nat)
    (hlen : 135 ≤ slice.length) (hd : slice.getD 0 0 ≤ 7) :
    ∃ v, VerifiedOutput.from_bytes slice = .ok v ∧
      VerifiedOutput.from_bytes (slice.take 135) = .ok v ∧
      v.to_bytes = slice.take 135 := by
  rcases hb : byte_to_tcb_status (slice.getD 0 0) with _ | st
  · exact absurd (byte_to_tcb_status_eq_none.mp hb) (by omega)
  refine ⟨{ tcb_status := st
            mr_enclave := (slice.drop 1).take 32
            mr_signer := (slice.drop 33).take 32
            report_data := (slice.drop 65).take 64
            fmspc := (slice.drop 129).take 6 }, ?_, ?_, ?_⟩
  · unfold VerifiedOutput.from_bytes
    rw [if_neg (by omega), hb]
    dsimp only
    rw [if_neg (by omega)]
  · have hlen135 : (slice.take 135).length = 135 := by
      rw [List.length_take]; omega
    have hgd : (slice.take 135).getD 0 0 = slice.getD 0 0 := by
      rcases slice with _ | ⟨x, t⟩
      · simp at hlen
      · rfl
    unfold VerifiedOutput.from_bytes
    rw [hlen135, hgd, hb]
    norm_num
    simp [← List.drop_one, List.drop_take, List.take_take]
  · have hwf : VerifiedOutput.wf
        { tcb_status := st
          mr_enclave := (slice.drop 1).take 32
          mr_signer := (slice.drop 33).take 32
          report_data := (slice.drop 65).take 64
          fmspc := (slice.drop 129).take 6 } := by
      refine ⟨?_, ?_, ?_, ?_⟩ <;> simp <;> omega
    have hseg := to_bytes_eq_segments _ hwf
    rw [hseg]
    dsimp only
    rw [tcb_status_to_byte_of_byte hb, take_135_split slice hlen]
    simp [List.append_assoc]

set_option maxRecDepth 4000 in
/-- Closed instance of `from_bytes_long_input` on a 140-byte input. -/
theorem from_bytes_long_input_witness :
    ∃ v, VerifiedOutput.from_bytes (List.replicate 140 1) = .ok v ∧
      VerifiedOutput.from_bytes ((List.replicate 140 1).take 135) = .ok v ∧
      v.to_bytes = (List.replicate 140 1).take 135 :=
  from_bytes_long_input (List.replicate 140 1) (by decide) (by decide)

/-- Modelled from the spec: the externally parsed TCB-info document ("an
external parser supplies already-typed collateral"); its internal structure
is irrelevant to the bundle claims, so it is kept as raw parsed content. -/
structure TcbInfoV2 where
  raw : List Nat
  deriving DecidableEq, Repr

/-- Modelled from the spec: the externally parsed enclave-identity
document, kept as raw parsed content like `TcbInfoV2`. -/
structure EnclaveIdentityV2 where
  raw : List Nat
  deriving DecidableEq, Repr

/-- Modelled from the spec: "the core consumes an already-parsed
certificate abstraction"; a parsed certificate view over DER bytes. -/
structure X509Certificate where
  der : List Nat
  deriving DecidableEq, Repr

/-- Collateral bundle of `src/types/mod.rs` (`struct IntelCollateralV3`):
eight independently settable optional slots. -/
structure IntelCollateralV3 where
  tcbinfov2 : Option TcbInfoV2
  qe_identityv2 : Option EnclaveIdentityV2
  intel_root_ca_der : Option (List Nat)
  sgx_tcb_signing_der : Option (List Nat)
  sgx_pck_certchain_der : Option (List Nat)
  sgx_intel_root_ca_crl_der : Option (List Nat)
  sgx_pck_processor_crl_der : Option (List Nat)
  sgx_pck_platform_crl_der : Option (List Nat)
  deriving DecidableEq, Repr

/-- `IntelCollateralV3::new` (`src/types/mod.rs:39-50`): every slot unset. -/
def IntelCollateralV3.new : IntelCollateralV3 :=
  { tcbinfov2 := none
    qe_identityv2 := none
    intel_root_ca_der := none
    sgx_tcb_signing_der := none
    sgx_pck_certchain_der := none
    sgx_intel_root_ca_crl_der := none
    sgx_pck_processor_crl_der := none
    sgx_pck_platform_crl_der := none }

/-- `set_tcbinfov2` (`src/types/mod.rs:52-54`): `serde_json::from_slice`
(the external deserializer, abstracted as the parameter `from_slice`)
followed by `.unwrap()`, whose failure is a panic. -/
def IntelCollateralV3.set_tcbinfov2
    (from_slice : List Nat → Except String (Option TcbInfoV2))
    (self : IntelCollateralV3) (tcbinfov2_slice : List Nat) :
    Except Err IntelCollateralV3 :=
  match from_slice tcbinfov2_slice with
  | .ok v => .ok { self with tcbinfov2 := v }
  | .error e => .error (.panicked e)

/-- `set_qeidentityv2` (`src/types/mod.rs:56-58`), like `set_tcbinfov2`. -/
def IntelCollateralV3.set_qeidentityv2
    (from_slice : List Nat → Except String (Option EnclaveIdentityV2))
    (self : IntelCollateralV3) (qeidentityv2_slice : List Nat) :
    Except Err IntelCollateralV3 :=
  match from_slice qeidentityv2_slice with
  | .ok v => .ok { self with qe_identityv2 := v }
  | .error e => .error (.panicked e)

/-- `get_intel_root_ca` (`src/types/mod.rs:60-68`): parse the stored DER
(external `parse_der` abstracted as a parameter); on an unset slot the
source runs `panic!("Intel Root CA not set")`. -/
def IntelCollateralV3.get_intel_root_ca
    (parse_der : List Nat → X509Certificate) (self : IntelCollateralV3) :
    Except Err X509Certificate :=
  match self.intel_root_ca_der with
  | some der => .ok (parse_der der)
  | none => .error (.panicked "Intel Root CA not set")

/-- `set_intel_root_ca_der` (`src/types/mod.rs:70-72`). -/
def IntelCollateralV3.set_intel_root_ca_der
    (self : IntelCollateralV3) (intel_root_ca_der : List Nat) : IntelCollateralV3 :=
  { self with intel_root_ca_der := some intel_root_ca_der }

/-- `get_sgx_tcb_signing` (`src/types/mod.rs:74-82`): like
`get_intel_root_ca`, with `panic!("SGX TCB Signing Cert not set")`. -/
def IntelCollateralV3.get_sgx_tcb_signing
    (parse_der : List Nat → X509Certificate) (self : IntelCollateralV3) :
    Except Err X509Certificate :=
  match self.sgx_tcb_signing_der with
  | some der => .ok (parse_der der)
  | none => .error (.panicked "SGX TCB Signing Cert not set")

/-- `set_sgx_tcb_signing_der` (`src/types/mod.rs:84-86`). -/
def IntelCollateralV3.set_sgx_tcb_signing_der
    (self : IntelCollateralV3) (sgx_tcb_signing_der : List Nat) : IntelCollateralV3 :=
  { self with sgx_tcb_signing_der := some sgx_tcb_signing_der }

/-- `set_sgx_tcb_signing_pem` (`src/types/mod.rs:88-92`): converts PEM to
DER via the external helper (abstracted as the parameter `pem_to_der`) and
stores it in the DER slot. -/
def IntelCollateralV3.set_sgx_tcb_signing_pem
    (pem_to_der : List Nat → List Nat)
    (self : IntelCollateralV3) (sgx_tcb_signing_pem : List Nat) : IntelCollateralV3 :=
  { self with sgx_tcb_signing_der := some (pem_to_der sgx_tcb_signing_pem) }

/-- `set_sgx_pck_certchain_der` (`src/types/mod.rs:104-113`). -/
def IntelCollateralV3.set_sgx_pck_certchain_der
    (self : IntelCollateralV3) (sgx_pck_certchain_der : Option (List Nat)) :
    IntelCollateralV3 :=
  match sgx_pck_certchain_der with
  | some certchain_der => { self with sgx_pck_certchain_der := some certchain_der }
  | none => { self with sgx_pck_certchain_der := none }

/-- `set_sgx_pck_certchain_pem` (`src/types/mod.rs:115-126`). -/
def IntelCollateralV3.set_sgx_pck_certchain_pem
    (pem_to_der : List Nat → List Nat)
    (self : IntelCollateralV3) (sgx_pck_certchain_pem : Option (List Nat)) :
    IntelCollateralV3 :=
  match sgx_pck_certchain_pem with
  | some certchain_pem =>
      { self with sgx_pck_certchain_der := some (pem_to_der certchain_pem) }
  | none => { self with sgx_pck_certchain_der := none }

/-- `set_sgx_processor_crl_der` (`src/types/mod.rs:128-130`). -/
def IntelCollateralV3.set_sgx_processor_crl_der
    (self : IntelCollateralV3) (sgx_pck_processor_crl_der : List Nat) :
    IntelCollateralV3 :=
  { self with sgx_pck_processor_crl_der := some sgx_pck_processor_crl_der }

/-- The eight slots of the bundle, named. -/
inductive Slot where
  | tcbinfo
  | qeidentity
  | rootca
  | tcbsigning
  | pckchain
  | rootcacrl
  | processorcrl
  | platformcrl
  deriving DecidableEq, Repr

/-- `a` and `b` agree on every slot other than `s`. -/
def agrees_except (a b : IntelCollateralV3) (s : Slot) : Prop :=
  (s ≠ .tcbinfo → a.tcbinfov2 = b.tcbinfov2) ∧
  (s ≠ .qeidentity → a.qe_identityv2 = b.qe_identityv2) ∧
  (s ≠ .rootca → a.intel_root_ca_der = b.intel_root_ca_der) ∧
  (s ≠ .tcbsigning → a.sgx_tcb_signing_der = b.sgx_tcb_signing_der) ∧
  (s ≠ .pckchain → a.sgx_pck_certchain_der = b.sgx_pck_certchain_der) ∧
  (s ≠ .rootcacrl → a.sgx_intel_root_ca_crl_der = b.sgx_intel_root_ca_crl_der) ∧
  (s ≠ .processorcrl → a.sgx_pck_processor_crl_der = b.sgx_pck_processor_crl_der) ∧
  (s ≠ .platformcrl → a.sgx_pck_platform_crl_der = b.sgx_pck_platform_crl_der)

/-- Claim C10: every setter of `IntelCollateralV3` modifies only its own
slot of the bundle (for the PEM setters, the DER slot they feed) and leaves
the other seven slots unchanged; for the two deserializing setters this is
stated for every successful call. -/
theorem setters_touch_only_their_slot (c : IntelCollateralV3)
    (fs : List Nat → Except String (Option TcbInfoV2))
    (fq : List Nat → Except String (Option EnclaveIdentityV2))
    (p2d : List Nat → List Nat) (bytes : List Nat) (ob : Option (List Nat)) :
    (∀ c', c.set_tcbinfov2 fs bytes = .ok c' → agrees_except c' c .tcbinfo) ∧
    (∀ c', c.set_qeidentityv2 fq bytes = .ok c' → agrees_except c' c .qeidentity) ∧
    agrees_except (c.set_intel_root_ca_der bytes) c .rootca ∧
    agrees_except (c.set_sgx_tcb_signing_der bytes) c .tcbsigning ∧
    agrees_except (c.set_sgx_tcb_signing_pem p2d bytes) c .tcbsigning ∧
    agrees_except (c.set_sgx_pck_certchain_der ob) c .pckchain ∧
    agrees_except (c.set_sgx_pck_certchain_pem p2d ob) c .pckchain ∧
    agrees_except (c.set_sgx_processor_crl_der bytes) c .processorcrl := by
  refine ⟨?_, ?_, ?_, ?_, ?_, ?_, ?_, ?_⟩
  · intro c' h
    unfold IntelCollateralV3.set_tcbinfov2 at h
    rcases hf : fs bytes with e | v <;> rw [hf] at h
    · cases h
    · cases h
      simp [agrees_except]
  · intro c' h
    unfold IntelCollateralV3.set_qeidentityv2 at h
    rcases hf : fq bytes with e | v <;> rw [hf] at h
    · cases h
    · cases h
      simp [agrees_except]
  · simp [agrees_except, IntelCollateralV3.set_intel_root_ca_der]
  · simp [agrees_except, IntelCollateralV3.set_sgx_tcb_signing_der]
  · simp [agrees_except, IntelCollateralV3.set_sgx_tcb_signing_pem]
  · rcases ob with _ | d <;>
      simp [agrees_except, IntelCollateralV3.set_sgx_pck_certchain_der]
  · rcases ob with _ | d <;>
      simp [agrees_except, IntelCollateralV3.set_sgx_pck_certchain_pem]
  · simp [agrees_except, IntelCollateralV3.set_sgx_processor_crl_der]

/-- Counterexample to claim C8 as stated: on an empty bundle the accessor
does abort (a `panic!`, modelled as a `panicked` error), which is not a
typed missing-collateral error value. -/
theorem get_intel_root_ca_panics_on_empty :
    IntelCollateralV3.get_intel_root_ca X509Certificate.mk IntelCollateralV3.new =
      .error (.panicked "Intel Root CA not set") ∧
    ∀ s, Err.panicked "Intel Root CA not set" ≠ Err.missingCollateral s := by
  exact ⟨rfl, fun s h => Err.noConfusion h⟩

/-- Claim C8 as amended: reading an unset required slot never dereferences
null and never returns a parsed certificate; it fails with a slot-specific
`panic!` message naming the missing collateral ("Intel Root CA not set" /
"SGX TCB Signing Cert not set"), modelled as a `panicked` error value. -/
theorem getters_fail_when_unset (c : IntelCollateralV3)
    (parse_der : List Nat → X509Certificate)
    (h1 : c.intel_root_ca_der = none) (h2 : c.sgx_tcb_signing_der = none) :
    c.get_intel_root_ca parse_der = .error (.panicked "Intel Root CA not set") ∧
    c.get_sgx_tcb_signing parse_der = .error (.panicked "SGX TCB Signing Cert not set") := by
  unfold IntelCollateralV3.get_intel_root_ca IntelCollateralV3.get_sgx_tcb_signing
  rw [h1, h2]
  exact ⟨rfl, rfl⟩

/-- Closed instance of `getters_fail_when_unset` at the empty bundle. -/
theorem getters_fail_when_unset_witness :
    IntelCollateralV3.get_intel_root_ca X509Certificate.mk IntelCollateralV3.new =
      .error (.panicked "Intel Root CA not set") ∧
    IntelCollateralV3.get_sgx_tcb_signing X509Certificate.mk IntelCollateralV3.new =
      .error (.panicked "SGX TCB Signing Cert not set") :=
  getters_fail_when_unset IntelCollateralV3.new X509Certificate.mk rfl rfl

set_option maxRecDepth 4000 in
example :
    VerifiedOutput.to_bytes
      { tcb_status := .TcbRevoked, mr_enclave := List.replicate 32 1,
        mr_signer := List.replicate 32 2, report_data := List.replicate 64 3,
        fmspc := List.replicate 6 4 } =
      6 :: (List.replicate 32 1 ++ List.replicate 32 2 ++
        List.replicate 64 3 ++ List.replicate 6 4) := by decide

/-- Modelled from the spec: the severity index of a status under the total
order of §3 (the enumeration order, OK least severe, TcbUnrecognized most
severe), required for status convergence. -/
def tcb_status_severity : TcbStatus → Nat
  | .OK => 0
  | .TcbSwHardeningNeeded => 1
  | .TcbConfigurationAndSwHardeningNeeded => 2
  | .TcbConfigurationNeeded => 3
  | .TcbOutOfDate => 4
  | .TcbOutOfDateConfigurationNeeded => 5
  | .TcbRevoked => 6
  | .TcbUnrecognized => 7

/-- Modelled from the spec: `converge_tcb_status_with_qe_tcb` (declared in
`src/utils/quotes`, not under src/), following §4.6: "the final status is
the more severe of the two statuses under the total order defined in §3,
except that an unrecognized QE status always forces the final status to
unrecognized". -/
def converge_tcb_status_with_qe_tcb (tcb_status qe_tcb_status : TcbStatus) : TcbStatus :=
  if qe_tcb_status = .TcbUnrecognized then .TcbUnrecognized
  else if tcb_status_severity tcb_status ≤ tcb_status_severity qe_tcb_status then
    qe_tcb_status
  else tcb_status

/-- Claim C6: for any pair with a non-revoked platform status, the
converged status is at least as severe as either input; and an unrecognized
QE status forces the converged status to unrecognized for every platform
status. -/
theorem converge_at_least_as_severe (p q : TcbStatus) :
    (p ≠ .TcbRevoked →
      tcb_status_severity p ≤
        tcb_status_severity (converge_tcb_status_with_qe_tcb p q) ∧
      tcb_status_severity q ≤
        tcb_status_severity (converge_tcb_status_with_qe_tcb p q)) ∧
    converge_tcb_status_with_qe_tcb p .TcbUnrecognized = .TcbUnrecognized := by
  cases p <;> cases q <;> decide

/-- Closed instance of `converge_at_least_as_severe`. -/
theorem converge_at_least_as_severe_witness :
    tcb_status_severity .TcbConfigurationNeeded ≤
      tcb_status_severity
        (converge_tcb_status_with_qe_tcb .TcbConfigurationNeeded .TcbOutOfDate) ∧
    tcb_status_severity .TcbOutOfDate ≤
      tcb_status_severity
        (converge_tcb_status_with_qe_tcb .TcbConfigurationNeeded .TcbOutOfDate) :=
  (converge_at_least_as_severe .TcbConfigurationNeeded .TcbOutOfDate).1 (by decide)

/-- Modelled from the spec (§3): one TCB level of the TCB-info collateral —
a 16-component array of security-version numbers, a PCE security-version
number, a status label and advisory identifiers. -/
structure TcbLevelV3 where
  sgxtcbcomponents : Fin 16 → Nat
  pcesvn : Nat
  tcbStatus : TcbStatus
  advisoryIDs : List String

/-- Modelled from the spec (§3): the TCB-info collateral — FMSPC plus an
ordered sequence of TCB levels. -/
structure TcbInfoV3 where
  fmspc : List Nat
  tcb_levels : List TcbLevelV3

/-- Modelled from the spec (§4.4): the platform data read from the leaf
certificate's vendor extension — FMSPC, the 16 reported security-version
components and the PCE security-version number. -/
structure SgxExtensions where
  fmspc : List Nat
  tcb_compsvn : Fin 16 → Nat
  tcb_pcesvn : Nat

/-- A TCB level matches the platform when every one of the 16 platform
components is at least the level's component and the platform PCE SVN is at
least the level's PCE SVN (§4.4). -/
def tcb_level_matches (ext : SgxExtensions) (lvl : TcbLevelV3) : Bool :=
  decide (∀ i : Fin 16, lvl.sgxtcbcomponents i ≤ ext.tcb_compsvn i) &&
    decide (lvl.pcesvn ≤ ext.tcb_pcesvn)

/-- Modelled from the spec (§4.4): the greedy first-match linear scan over
the collateral's declared order; an empty remainder is the
`TcbEvaluationFailed` case ("never silently approve"). -/
def scan_tcb_levels (ext : SgxExtensions) :
    List TcbLevelV3 → Except Err (TcbStatus × List String)
  | [] => .error .tcbEvaluationFailed
  | lvl :: rest =>
    if tcb_level_matches ext lvl then .ok (lvl.tcbStatus, lvl.advisoryIDs)
    else scan_tcb_levels ext rest

set_option linter.unusedVariables false in
/-- Modelled from the spec: `get_sgx_tdx_fmspc_tcbstatus_v3` (declared in
`src/utils/cert`, not under src/): derive the platform TCB status and
advisory ids from the TCB-info collateral by the §4.4 scan.  The source
returns a triple whose middle (TDX) component `verify_quote_dcapv3`
discards; the model returns the two used components. -/
def get_sgx_tdx_fmspc_tcbstatus_v3 (tee_type : Nat) (ext : SgxExtensions)
    (tcb_info_v3 : TcbInfoV3) : Except Err (TcbStatus × List String) :=
  scan_tcb_levels ext tcb_info_v3.tcb_levels

/-- Bool-level match test unfolded to its two comparisons. -/
theorem tcb_level_matches_iff (ext : SgxExtensions) (lvl : TcbLevelV3) :
    tcb_level_matches ext lvl = true ↔
      ((∀ i : Fin 16, lvl.sgxtcbcomponents i ≤ ext.tcb_compsvn i) ∧
        lvl.pcesvn ≤ ext.tcb_pcesvn) := by
  simp [tcb_level_matches]

/-- The scan succeeds exactly on the first matching level of the list. -/
theorem scan_tcb_levels_ok_iff (ext : SgxExtensions) (ls : List TcbLevelV3)
    (s : TcbStatus) (adv : List String) :
    scan_tcb_levels ext ls = .ok (s, adv) ↔
      ∃ pre lvl post, ls = pre ++ lvl :: post ∧
        (∀ l ∈ pre, tcb_level_matches ext l = false) ∧
        tcb_level_matches ext lvl = true ∧
        s = lvl.tcbStatus ∧ adv = lvl.advisoryIDs := by
  induction ls with
  | nil =>
    simp [scan_tcb_levels]
  | cons hd tl ih =>
    by_cases hm : tcb_level_matches ext hd
    · rw [scan_tcb_levels, if_pos hm]
      constructor
      · intro h
        obtain ⟨hs, hadv⟩ := Prod.mk.injEq .. ▸ Except.ok.inj h
        exact ⟨[], hd, tl, rfl, by simp, hm, hs.symm ▸ rfl, hadv.symm ▸ rfl⟩
      · rintro ⟨pre, lvl, post, heq, hpre, hlvl, hs, hadv⟩
        rcases pre with _ | ⟨p0, pre⟩
        · simp only [List.nil_append, List.cons.injEq] at heq
          rw [hs, hadv, heq.1]
        · simp only [List.cons_append, List.cons.injEq] at heq
          have hfalse := hpre p0 (by simp)
          rw [← heq.1] at hfalse
          rw [hfalse] at hm
          cases hm
    · rw [scan_tcb_levels, if_neg hm, ih]
      rw [Bool.not_eq_true] at hm
      constructor
      · rintro ⟨pre, lvl, post, heq, hpre, hlvl, hs, hadv⟩
        refine ⟨hd :: pre, lvl, post, by rw [heq]; rfl, ?_, hlvl, hs, hadv⟩
        intro l hl
        rcases List.mem_cons.mp hl with rfl | hl
        · exact hm
        · exact hpre l hl
      · rintro ⟨pre, lvl, post, heq, hpre, hlvl, hs, hadv⟩
        rcases pre with _ | ⟨p0, pre⟩
        · simp only [List.nil_append, List.cons.injEq] at heq
          rw [← heq.1] at hlvl
          rw [hlvl] at hm
          cases hm
        · simp only [List.cons_append, List.cons.injEq] at heq
          exact ⟨pre, lvl, post, heq.2, fun l hl => hpre l (by simp [hl]), hlvl, hs, hadv⟩

/-- The scan fails (with `TcbEvaluationFailed`) exactly when no level of
the list matches. -/
theorem scan_tcb_levels_error_iff (ext : SgxExtensions) (ls : List TcbLevelV3) :
    scan_tcb_levels ext ls = .error .tcbEvaluationFailed ↔
      ∀ l ∈ ls, tcb_level_matches ext l = false := by
  induction ls with
  | nil => simp [scan_tcb_levels]
  | cons hd tl ih =>
    by_cases hm : tcb_level_matches ext hd
    · rw [scan_tcb_levels, if_pos hm]
      simp [hm]
    · rw [scan_tcb_levels, if_neg hm, ih]
      rw [Bool.not_eq_true] at hm
      simp [hm]

/-- The scan never produces any other outcome. -/
theorem scan_tcb_levels_total (ext : SgxExtensions) (ls : List TcbLevelV3) :
    (∃ s adv, scan_tcb_levels ext ls = .ok (s, adv)) ∨
      scan_tcb_levels ext ls = .error .tcbEvaluationFailed := by
  induction ls with
  | nil => exact Or.inr rfl
  | cons hd tl ih =>
    by_cases hm : tcb_level_matches ext hd
    · exact Or.inl ⟨hd.tcbStatus, hd.advisoryIDs, by rw [scan_tcb_levels, if_pos hm]⟩
    · rw [scan_tcb_levels, if_neg hm]
      exact ih

/-- Claim C5: the TCB evaluation returns the status of the FIRST TcbLevel
in the collateral's declared order whose 16 components are component-wise
at most the platform's and whose PCE SVN is at most the platform's; when no
level satisfies this it fails with `TcbEvaluationFailed` and returns no
status. -/
theorem get_sgx_tdx_fmspc_tcbstatus_v3_spec (tee_type : Nat)
    (ext : SgxExtensions) (info : TcbInfoV3) :
    (∀ s adv, get_sgx_tdx_fmspc_tcbstatus_v3 tee_type ext info = .ok (s, adv) ↔
      ∃ pre lvl post, info.tcb_levels = pre ++ lvl :: post ∧
        (∀ l ∈ pre, ¬ ((∀ i : Fin 16, l.sgxtcbcomponents i ≤ ext.tcb_compsvn i) ∧
          l.pcesvn ≤ ext.tcb_pcesvn)) ∧
        (∀ i : Fin 16, lvl.sgxtcbcomponents i ≤ ext.tcb_compsvn i) ∧
        lvl.pcesvn ≤ ext.tcb_pcesvn ∧
        s = lvl.tcbStatus ∧ adv = lvl.advisoryIDs) ∧
    (get_sgx_tdx_fmspc_tcbstatus_v3 tee_type ext info = .error .tcbEvaluationFailed ↔
      ∀ l ∈ info.tcb_levels,
        ¬ ((∀ i : Fin 16, l.sgxtcbcomponents i ≤ ext.tcb_compsvn i) ∧
          l.pcesvn ≤ ext.tcb_pcesvn)) ∧
    ((∃ s adv, get_sgx_tdx_fmspc_tcbstatus_v3 tee_type ext info = .ok (s, adv)) ∨
      get_sgx_tdx_fmspc_tcbstatus_v3 tee_type ext info = .error .tcbEvaluationFailed) := by
  have hb : ∀ l : TcbLevelV3, tcb_level_matches ext l = false ↔
      ¬ ((∀ i : Fin 16, l.sgxtcbcomponents i ≤ ext.tcb_compsvn i) ∧
        l.pcesvn ≤ ext.tcb_pcesvn) := by
    intro l
    rw [← tcb_level_matches_iff ext l]
    simp
  refine ⟨?_, ?_, ?_⟩
  · intro s adv
    rw [get_sgx_tdx_fmspc_tcbstatus_v3, scan_tcb_levels_ok_iff]
    constructor
    · rintro ⟨pre, lvl, post, heq, hpre, hlvl, hs, hadv⟩
      exact ⟨pre, lvl, post, heq, fun l hl => (hb l).mp (hpre l hl),
        (tcb_level_matches_iff ext lvl).mp hlvl |>.1,
        (tcb_level_matches_iff ext lvl).mp hlvl |>.2, hs, hadv⟩
    · rintro ⟨pre, lvl, post, heq, hpre, hc, hp, hs, hadv⟩
      exact ⟨pre, lvl, post, heq, fun l hl => (hb l).mpr (hpre l hl),
        (tcb_level_matches_iff ext lvl).mpr ⟨hc, hp⟩, hs, hadv⟩
  · rw [get_sgx_tdx_fmspc_tcbstatus_v3, scan_tcb_levels_error_iff]
    constructor
    · intro h l hl
      exact (hb l).mp (h l hl)
    · intro h l hl
      exact (hb l).mpr (h l hl)
  · exact scan_tcb_levels_total ext info.tcb_levels

/-- Spec §8.7 scenario: level A (components 5, PCE 2, OK) then level B
(components 0, PCE 0, out-of-date); a platform at (5,…,5 / 2) matches A. -/
example :
    get_sgx_tdx_fmspc_tcbstatus_v3 0
      { fmspc := [0,0,0,0,0,0], tcb_compsvn := fun _ => 5, tcb_pcesvn := 2 }
      { fmspc := [0,0,0,0,0,0]
        tcb_levels :=
          [{ sgxtcbcomponents := fun _ => 5, pcesvn := 2, tcbStatus := .OK,
             advisoryIDs := [] },
           { sgxtcbcomponents := fun _ => 0, pcesvn := 0, tcbStatus := .TcbOutOfDate,
             advisoryIDs := [] }] } = .ok (.OK, []) := by decide

/-- Spec §8.7 scenario continued: a platform with one component dropped to 3
fails level A and matches level B. -/
example :
    get_sgx_tdx_fmspc_tcbstatus_v3 0
      { fmspc := [0,0,0,0,0,0]
        tcb_compsvn := fun i => if i = 0 then 3 else 5
        tcb_pcesvn := 2 }
      { fmspc := [0,0,0,0,0,0]
        tcb_levels :=
          [{ sgxtcbcomponents := fun _ => 5, pcesvn := 2, tcbStatus := .OK,
             advisoryIDs := [] },
           { sgxtcbcomponents := fun _ => 0, pcesvn := 0, tcbStatus := .TcbOutOfDate,
             advisoryIDs := [] }] } = .ok (.TcbOutOfDate, []) := by decide

/-- Quote header fields used by the v3 path (`quote.header.version`,
`quote.header.tee_type` in `src/utils/quotes/version_3.rs`); the remaining
vendor/misc header fields play no role in these claims. -/
structure QuoteHeader where
  version : Nat
  att_key_type : Nat
  tee_type : Nat
  deriving DecidableEq, Repr

/-- Modelled from the spec: `check_quote_header` (declared in
`src/utils/quotes`, not under src/), per §4.1: the declared format version
must match the expected value.  It is a Bool test; `verify_quote_dcapv3`
wraps it in `assert!` (a panic, not a typed error). -/
def check_quote_header (header : QuoteHeader) (expected_version : Nat) : Bool :=
  decide (header.version = expected_version)

/-- Modelled from the spec: the SGX enclave report body; its contents are
opaque to the claims settled here. -/
structure EnclaveReport where
  raw : List Nat
  deriving DecidableEq, Repr

/-- Quote body as in `src/utils/quotes/version_3.rs:18` (the v3 path always
builds the SGX variant; §3 also names a TDX variant). -/
inductive QuoteBody where
  | SGXQuoteBody (report : EnclaveReport)
  | TD10QuoteBody (report : List Nat)
  deriving DecidableEq, Repr

/-- The v3 quote: header plus the ISV enclave report.  The signature
section of the source is consumed only by `common_verify_and_fetch_tcb`,
which is abstracted by its result (see `verify_quote_dcapv3`). -/
structure QuoteV3 where
  header : QuoteHeader
  isv_enclave_report : EnclaveReport
  deriving DecidableEq, Repr

/-- The versioned TCB-info collateral matched at
`src/utils/quotes/version_3.rs:33` (`TcbInfo::V3`). -/
inductive TcbInfo where
  | V2 (tcb : TcbInfoV2)
  | V3 (tcb : TcbInfoV3)

namespace version_3

/-- Output record built by `verify_quote_dcapv3`
(`src/utils/quotes/version_3.rs:49-56`). -/
structure VerifiedOutput where
  quote_version : Nat
  tee_type : Nat
  tcb_status : TcbStatus
  fmspc : List Nat
  quote_body : QuoteBody
  advisory_ids : List String
  deriving DecidableEq, Repr

/-- `verify_quote_dcapv3` (`src/utils/quotes/version_3.rs:11-57`).
`common_verify_and_fetch_tcb` (declared in the sibling quotes module, not
under src/) does the parsing/PKI/signature work outside these claims; it is
abstracted by its outcome `fetched`: the QE TCB status, the leaf
certificate's SGX extensions and the TCB-info collateral — or the failure
it aborts with.  The source's `assert!` calls and `panic!` arms become
`panicked` errors with the source's messages. -/
def verify_quote_dcapv3 (quote : QuoteV3)
    (fetched : Except Err (TcbStatus × SgxExtensions × TcbInfo)) :
    Except Err VerifiedOutput :=
  if check_quote_header quote.header 3 then
    match fetched with
    | .error e => .error e
    | .ok (qe_tcb_status, sgx_extensions, tcb_info) =>
      match tcb_info with
      | .V2 _ => .error (.panicked "TcbInfo must be V3!")
      | .V3 tcb_info_v3 =>
        match get_sgx_tdx_fmspc_tcbstatus_v3 quote.header.tee_type
            sgx_extensions tcb_info_v3 with
        | .error e => .error e
        | .ok (tcb_status, advisory_ids) =>
          if tcb_status = .TcbRevoked then
            .error (.panicked "FMSPC TCB Revoked")
          else
            .ok { quote_version := quote.header.version
                  tee_type := quote.header.tee_type
                  tcb_status := converge_tcb_status_with_qe_tcb tcb_status qe_tcb_status
                  fmspc := sgx_extensions.fmspc
                  quote_body := .SGXQuoteBody quote.isv_enclave_report
                  advisory_ids := advisory_ids }
  else .error (.panicked "invalid quote header")

end version_3

/-- Claim C1: whenever the platform TCB status derived from the TCB-info
collateral is `TcbRevoked`, `verify_quote_dcapv3` yields an error (the
source's `assert!` panic "FMSPC TCB Revoked") and never a `VerifiedOutput`;
the outcome is the same for every QE TCB status, so the failure occurs
before convergence with the QE status. -/
theorem verify_quote_dcapv3_revoked (quote : QuoteV3) (qe : TcbStatus)
    (ext : SgxExtensions) (t : TcbInfoV3) (adv : List String)
    (h : get_sgx_tdx_fmspc_tcbstatus_v3 quote.header.tee_type ext t =
      .ok (.TcbRevoked, adv)) :
    (∃ e, version_3.verify_quote_dcapv3 quote (.ok (qe, ext, .V3 t)) = .error e) ∧
    (∀ out, version_3.verify_quote_dcapv3 quote (.ok (qe, ext, .V3 t)) ≠ .ok out) ∧
    (∀ qe', version_3.verify_quote_dcapv3 quote (.ok (qe', ext, .V3 t)) =
      version_3.verify_quote_dcapv3 quote (.ok (qe, ext, .V3 t))) := by
  have key : ∀ q : TcbStatus, version_3.verify_quote_dcapv3 quote (.ok (q, ext, .V3 t)) =
      if check_quote_header quote.header 3 then .error (.panicked "FMSPC TCB Revoked")
      else .error (.panicked "invalid quote header") := by
    intro q
    unfold version_3.verify_quote_dcapv3
    by_cases hh : check_quote_header quote.header 3
    · rw [if_pos hh, if_pos hh]
      dsimp only
      rw [h]
      rfl
    · rw [if_neg hh, if_neg hh]
  refine ⟨?_, ?_, ?_⟩
  · rw [key qe]
    by_cases hh : check_quote_header quote.header 3
    · exact ⟨_, by rw [if_pos hh]⟩
    · exact ⟨_, by rw [if_neg hh]⟩
  · intro out hout
    rw [key qe] at hout
    by_cases hh : check_quote_header quote.header 3
    · rw [if_pos hh] at hout; cases hout
    · rw [if_neg hh] at hout; cases hout
  · intro qe'
    rw [key qe, key qe']

/-- Sample quote with a valid v3 header, for the closed witnesses. -/
def sample_quote : QuoteV3 :=
  { header := { version := 3, att_key_type := 2, tee_type := 0 }
    isv_enclave_report := { raw := [] } }

/-- Sample platform data for the closed witnesses. -/
def sample_ext : SgxExtensions :=
  { fmspc := [0, 0, 0, 0, 0, 0], tcb_compsvn := fun _ => 1, tcb_pcesvn := 1 }

/-- TCB-info whose first (and only) matching level is revoked. -/
def revoked_info : TcbInfoV3 :=
  { fmspc := [0, 0, 0, 0, 0, 0]
    tcb_levels :=
      [{ sgxtcbcomponents := fun _ => 0, pcesvn := 0, tcbStatus := .TcbRevoked,
         advisoryIDs := [] }] }

/-- Closed instance of `verify_quote_dcapv3_revoked`. -/
theorem verify_quote_dcapv3_revoked_witness :
    ∃ e, version_3.verify_quote_dcapv3 sample_quote
      (.ok (.OK, sample_ext, .V3 revoked_info)) = .error e :=
  (verify_quote_dcapv3_revoked sample_quote .OK sample_ext revoked_info []
    (by decide)).1

/-- Sample quote whose header declares version 4 instead of 3. -/
def bad_version_quote : QuoteV3 :=
  { header := { version := 4, att_key_type := 2, tee_type := 0 }
    isv_enclave_report := { raw := [] } }

/-- Counterexample to claim C7 as stated: on a version-4 quote the v3 path
fails through the `assert!` panic "invalid quote header" — which is not the
typed `UnsupportedVersion` error the claim names, and is a panic rather
than a typed failure in the source. -/
theorem verify_bad_version_not_unsupported_version :
    version_3.verify_quote_dcapv3 bad_version_quote
      (.ok (.OK, sample_ext, .V3 revoked_info)) =
      .error (.panicked "invalid quote header") ∧
    Err.panicked "invalid quote header" ≠ Err.unsupportedVersion :=
  ⟨rfl, fun h => Err.noConfusion h⟩

/-- Claim C7 as amended: for every quote whose declared version differs
from 3 and every outcome of the abstracted fetch stage, the v3 path fails
with the `assert!` panic "invalid quote header" (modelled as a `panicked`
error value) and never returns a `VerifiedOutput`; in the model every input
yields a typed success or a typed error value, but the source failure is a
panic, not a typed `UnsupportedVersion` error. -/
theorem verify_quote_dcapv3_wrong_version (quote : QuoteV3)
    (fetched : Except Err (TcbStatus × SgxExtensions × TcbInfo))
    (h : quote.header.version ≠ 3) :
    version_3.verify_quote_dcapv3 quote fetched =
      .error (.panicked "invalid quote header") := by
  unfold version_3.verify_quote_dcapv3
  rw [if_neg]
  simp [check_quote_header, h]

/-- Closed instance of `verify_quote_dcapv3_wrong_version`. -/
theorem verify_quote_dcapv3_wrong_version_witness :
    version_3.verify_quote_dcapv3 bad_version_quote (.error .truncatedInput) =
      .error (.panicked "invalid quote header") :=
  verify_quote_dcapv3_wrong_version bad_version_quote (.error .truncatedInput)
    (by decide)
